import Mathlib

/-!
Verification of the vid backend's classification fallback engine and its
satellite utilities, as a shallow embedding of the Python source
(`backend/services/classifier.py`, `backend/services/processors/*.py`,
`backend/services/youtube_extractor.py`, `backend/utils/video_utils.py`,
`backend/models/schemas.py`) into Lean.

Effectful pieces of the source are made explicit parameters:
the wall clock (`datetime.utcnow()`) becomes a `now : String` argument,
AI model calls become an environment of attempt outcomes, and the
collectors of the extraction orchestrator become an outcome record.
Python floats are modelled as exact rationals.
-/

namespace VidBrain

set_option maxRecDepth 16000
set_option maxHeartbeats 1000000

/-! ## String helpers (Python `in`, truthiness, `or` on strings) -/

/-- `needle` occurs as a contiguous substring of the char list, as in
Python's `needle in hay`. -/
def listContainsSub (needle : List Char) : List Char → Bool
  | [] => needle.isEmpty
  | c :: t => needle.isPrefixOf (c :: t) || listContainsSub needle t

/-- Python's `needle in hay` on strings. -/
def strContains (hay needle : String) : Bool :=
  listContainsSub needle.toList hay.toList

/-- Python truthiness of an optional string: `None` and `""` are falsy. -/
def strTruthy (o : Option String) : Bool :=
  !(o.getD "").isEmpty

/-- Python's `a or b` where `a` is an optional string and `b` a string. -/
def pyOrStr (a : Option String) (b : String) : String :=
  match a with
  | none => b
  | some s => if s.isEmpty then b else s

/-- Python's `s.lower()` (character-wise lower-casing). -/
def lowerStr (s : String) : String :=
  String.mk (s.toList.map Char.toLower)

/-- Python's slice `s[:n]` (first `n` characters). -/
def takeStr (s : String) (n : Nat) : String :=
  String.mk (s.toList.take n)

/-- Python's `min(a, b)` on two numbers (kept executable on `ℚ`). -/
def pyMin (a b : ℚ) : ℚ :=
  if a ≤ b then a else b

/-! ## Data model (`backend/models/schemas.py`) -/

/-- `VideoCategory`: the closed set of content categories
(`schemas.py` lines 12-27). -/
inductive VideoCategory
  | movie_list
  | song_list
  | comedy
  | recipe
  | education
  | product_review
  | travel
  | news
  | fitness
  | podcast
  | tutorial
  | gaming
  | vlog
  | unknown
deriving DecidableEq, Repr

/-- The `.value` string of each enum member. -/
def VideoCategory.value : VideoCategory → String
  | .movie_list => "movie_list"
  | .song_list => "song_list"
  | .comedy => "comedy"
  | .recipe => "recipe"
  | .education => "education"
  | .product_review => "product_review"
  | .travel => "travel"
  | .news => "news"
  | .fitness => "fitness"
  | .podcast => "podcast"
  | .tutorial => "tutorial"
  | .gaming => "gaming"
  | .vlog => "vlog"
  | .unknown => "unknown"

/-- Enumeration of the whole closed category set. -/
def VideoCategory.all : List VideoCategory :=
  [.movie_list, .song_list, .comedy, .recipe, .education, .product_review,
   .travel, .news, .fitness, .podcast, .tutorial, .gaming, .vlog, .unknown]

/-- `VideoMetadata` (`schemas.py` lines 30-43). -/
structure VideoMetadata where
  video_id : String
  title : String
  description : String
  channel_name : String
  channel_id : String
  duration_seconds : Nat
  view_count : Nat := 0
  like_count : Option Nat := none
  tags : List String := []
  thumbnail_url : String
  published_at : String
  category_id : String

/-- `ExtractionResult` (`schemas.py` lines 64-86). -/
structure ExtractionResult where
  metadata : VideoMetadata
  captions : Option String := none
  transcript : Option String := none
  key_frame_paths : List String := []
  top_comments : List String := []
  extraction_time_seconds : Option ℚ := none

/-- `ClassificationResult` (`schemas.py` lines 173-202).  The pydantic
field constraint `ge=0.0, le=1.0` on `confidence` is part of the data
model: constructing a result with out-of-range confidence raises a
validation error in the source, so every value of this type carries the
bound. -/
structure ClassificationResult where
  video_id : String
  category : VideoCategory
  confidence : ℚ
  sub_category : Option String := none
  reasoning : String
  alternative_categories : List String := []
  model_used : String
  classified_at : Option String := none
  conf_nonneg : 0 ≤ confidence
  conf_le_one : confidence ≤ 1

/-! ## Rule-based classifier (`classifier.py` lines 279-398) -/

/-- One category's three keyword tiers. -/
structure KeywordTiers where
  strong : List String
  medium : List String
  weak : List String

/-- The fixed keyword table of `rule_based_classify`
(`classifier.py` lines 296-357), in Python dict insertion order. -/
def rulesTable : List (VideoCategory × KeywordTiers) :=
  [(.movie_list,
    ⟨["top movies", "best movies", "must watch movies", "movie list", "films you"],
     ["movies of 20", "greatest films", "movie ranking", "film ranking"],
     ["movies", "cinema", "film"]⟩),
   (.song_list,
    ⟨["top songs", "best songs", "hit songs", "song list", "music compilation"],
     ["songs of 20", "playlist", "greatest hits", "music ranking"],
     ["songs", "music", "hits"]⟩),
   (.comedy,
    ⟨["stand up", "standup", "comedy special", "comedian"],
     ["comedy", "funny", "sketch", "skit"],
     ["laugh", "humor", "joke"]⟩),
   (.recipe,
    ⟨["recipe", "how to cook", "cooking tutorial", "how to make"],
     ["cooking", "baking", "ingredients", "prepare"],
     ["food", "kitchen", "meal"]⟩),
   (.education,
    ⟨["tutorial", "how to", "learn", "explained", "course"],
     ["education", "lecture", "teaching", "lesson"],
     ["guide", "tips", "knowledge"]⟩),
   (.product_review,
    ⟨["review", "unboxing", "vs comparison", "hands on"],
     ["product", "test", "comparison"],
     ["worth it", "should you buy"]⟩),
   (.gaming,
    ⟨["gameplay", "walkthrough", "let's play", "gaming"],
     ["playthrough", "game", "stream"],
     ["playing", "gamer"]⟩),
   (.vlog,
    ⟨["vlog", "day in my life", "what i eat in a day"],
     ["daily vlog", "my day", "come with me"],
     ["lifestyle", "routine"]⟩),
   (.fitness,
    ⟨["workout", "exercise", "fitness routine"],
     ["training", "gym", "muscle"],
     ["health", "fit"]⟩),
   (.travel,
    ⟨["travel vlog", "travel guide", "things to do in"],
     ["visit", "destination", "trip"],
     ["travel", "vacation"]⟩),
   (.podcast,
    ⟨["podcast", "interview with", "ep ", "episode"],
     ["conversation", "discussion", "talk"],
     ["chat"]⟩),
   (.tutorial,
    ⟨["tutorial", "how to", "step by step"],
     ["guide", "learn", "diy"],
     ["tips", "tricks"]⟩)]

/-- Weighted keyword score of one category against the search text:
5 per matching strong keyword, 2 per medium, 1 per weak
(`classifier.py` lines 361-366). -/
def keywordScore (text : String) (t : KeywordTiers) : Nat :=
  5 * t.strong.countP (fun kw => strContains text kw)
    + 2 * t.medium.countP (fun kw => strContains text kw)
    + 1 * t.weak.countP (fun kw => strContains text kw)

/-- The combined lower-cased search text
`f"{title} {desc} {transcript}"` with the text content truncated to
1000 chars (`classifier.py` lines 287-293). -/
def searchText (x : ExtractionResult) : String :=
  let title := lowerStr x.metadata.title
  let desc := lowerStr x.metadata.description
  let tr := takeStr (lowerStr (pyOrStr x.captions (pyOrStr x.transcript ""))) 1000
  title ++ " " ++ desc ++ " " ++ tr

/-- The `scores` dict of `rule_based_classify`, in table order. -/
def scoresList (x : ExtractionResult) : List (VideoCategory × Nat) :=
  rulesTable.map (fun p => (p.1, keywordScore (searchText x) p.2))

/-- Python's `max(scores.values())` (the scores list is never empty). -/
def maxScore (x : ExtractionResult) : Nat :=
  (scoresList x).foldl (fun m p => max m p.2) 0

/-- One step of Python's `max(scores, key=scores.get)`: keep the current
candidate unless the next value is strictly greater (so the first
maximum in table order wins). -/
def pickMax (b y : VideoCategory × Nat) : VideoCategory × Nat :=
  if b.2 < y.2 then y else b

/-- Python's `max(scores, key=scores.get)` together with its score. -/
def bestPair (x : ExtractionResult) : VideoCategory × Nat :=
  match scoresList x with
  | [] => (VideoCategory.unknown, 0)
  | s :: rest => rest.foldl pickMax s

/-- Stable insertion into a descending-by-score list: an element is
placed after every earlier element with a strictly greater score and
before equal scores, matching Python's stable `sorted(..., reverse=True)`. -/
def insertDesc (p : VideoCategory × Nat) :
    List (VideoCategory × Nat) → List (VideoCategory × Nat)
  | [] => [p]
  | q :: rest => if p.2 < q.2 then q :: insertDesc p rest else p :: q :: rest

/-- Python's `sorted(scores.items(), key=lambda x: x[1], reverse=True)`
(stable descending sort). -/
def sortDesc : List (VideoCategory × Nat) → List (VideoCategory × Nat)
  | [] => []
  | p :: rest => insertDesc p (sortDesc rest)

/-- `[cat.value for cat, score in sorted_categories[1:3] if score > 0]`
(`classifier.py` lines 383-384). -/
def alternativesOf (x : ExtractionResult) : List String :=
  (((sortDesc (scoresList x)).drop 1).take 2).filterMap
    (fun p => if 0 < p.2 then some p.1.value else none)

/-- `rule_based_classify` (`classifier.py` lines 279-398).  The wall
clock read `datetime.utcnow().isoformat() + "Z"` is passed in as `now`. -/
def rule_based_classify (now : String) (x : ExtractionResult) :
    ClassificationResult :=
  if maxScore x = 0 then
    { video_id := x.metadata.video_id
      category := .unknown
      confidence := 3/10
      sub_category := none
      reasoning := "No matching keywords found in rule-based classification"
      alternative_categories := []
      model_used := "rule-based"
      classified_at := some now
      conf_nonneg := by norm_num
      conf_le_one := by norm_num }
  else
    { video_id := x.metadata.video_id
      category := (bestPair x).1
      confidence := pyMin (3/5) (((bestPair x).2 : ℚ) / 15)
      sub_category := none
      reasoning := "Rule-based classification (keyword score: "
        ++ toString (bestPair x).2 ++ ")"
      alternative_categories := alternativesOf x
      model_used := "rule-based"
      classified_at := some now
      conf_nonneg := by
        unfold pyMin; split
        · norm_num
        · positivity
      conf_le_one := by
        unfold pyMin; split
        · norm_num
        · next h =>
            have := not_le.mp h
            linarith }

/-! ## Classification fallback ladder (`classifier.py` lines 222-276)

`classify_with_fallback` performs four AI attempts before the rule-based
terminal rung.  Each attempt constructs a `VideoClassifier` and calls
`classify_video` for a model/modality pair; the call either raises (network
error, malformed JSON, missing credentials — `VideoClassifier.classify_video`
raises `ValueError` when `GOOGLE_API_KEY` is unset) or returns a validated
`ClassificationResult`.  The outcomes of these external calls are the
environment of the embedding. -/

/-- Which Gemini model an attempt uses: `PRIMARY_MODEL` or `FALLBACK_MODEL`. -/
inductive ModelChoice
  | primary
  | fallback
deriving DecidableEq

/-- Outcome of one AI classification call: the call raised, or it returned
a (pydantic-validated) result. -/
inductive AttemptOutcome
  | throws
  | returns (r : ClassificationResult)

/-- The environment of AI-call outcomes, indexed by model choice and the
`include_frames` flag of `classify_video`. -/
def AttemptEnv : Type :=
  ModelChoice → Bool → AttemptOutcome

/-- One rung of the ladder: a raised call is caught (yielding `none`), and
a returned result is accepted only when its confidence exceeds the rung's
threshold. -/
def attemptAccept (o : AttemptOutcome) (threshold : ℚ) :
    Option ClassificationResult :=
  match o with
  | .throws => none
  | .returns r => if threshold < r.confidence then some r else none

/-- `classify_with_fallback` (`classifier.py` lines 222-276): primary
multimodal at `> 0.7`, primary text-only at `> 0.6`, fallback multimodal at
`> 0.7`, fallback text-only at `> 0.5`, then `rule_based_classify`. -/
def classify_with_fallback (env : AttemptEnv) (now : String)
    (x : ExtractionResult) : ClassificationResult :=
  match attemptAccept (env .primary true) (7/10) with
  | some r => r
  | none =>
    match attemptAccept (env .primary false) (6/10) with
    | some r => r
    | none =>
      match attemptAccept (env .fallback true) (7/10) with
      | some r => r
      | none =>
        match attemptAccept (env .fallback false) (5/10) with
        | some r => r
        | none => rule_based_classify now x

/-- The four AI rungs in ladder order, each paired with its acceptance
threshold. -/
def ladderRungs (env : AttemptEnv) : List (AttemptOutcome × ℚ) :=
  [(env .primary true, 7/10), (env .primary false, 6/10),
   (env .fallback true, 7/10), (env .fallback false, 5/10)]

/-- First accepted result of a list of rungs: a rung is consulted only when
every earlier rung was rejected (threw, or scored at or below its
threshold). -/
def firstAccepted : List (AttemptOutcome × ℚ) → Option ClassificationResult
  | [] => none
  | (o, t) :: rest =>
    match attemptAccept o t with
    | some r => some r
    | none => firstAccepted rest

/-! ## URL / ID utilities (`backend/utils/video_utils.py`) -/

/-- The regex character class `[a-zA-Z0-9_-]`. -/
def idChar (c : Char) : Bool :=
  c.isAlphanum || c == '_' || c == '-'

/-- Python's `str.strip()`. -/
def pyStrip (s : String) : String :=
  String.mk
    (((s.toList.dropWhile Char.isWhitespace).reverse.dropWhile
      Char.isWhitespace).reverse)

/-- Try the regex `lit([a-zA-Z0-9_-]{11})` anchored at the start of `cs`:
the literal followed by exactly 11 identifier characters (a longer run
still matches, taking the first 11). -/
def matchIdAt (lit : List Char) (cs : List Char) : Option (List Char) :=
  if lit.isPrefixOf cs then
    let cand := (cs.drop lit.length).take 11
    if cand.length = 11 && cand.all idChar then some cand else none
  else none

/-- `re.search` of the pattern `lit([a-zA-Z0-9_-]{11})`: the match at the
leftmost position where it succeeds. -/
def searchIdPat (lit : List Char) : List Char → Option (List Char)
  | [] => matchIdAt lit []
  | c :: cs =>
    match matchIdAt lit (c :: cs) with
    | some r => some r
    | none => searchIdPat lit cs

/-- The captured group of `re.search(lit + r'([a-zA-Z0-9_-]{11})', s)`. -/
def regexFindId (lit : String) (s : String) : Option String :=
  (searchIdPat lit.toList s.toList).map (fun cs => String.mk cs)

/-- `validate_video_id` (`video_utils.py` lines 86-106):
`re.match(r'^[a-zA-Z0-9_-]{11}$', s)`.  The class consumes exactly the
first 11 characters, which must all lie in `[a-zA-Z0-9_-]`, and `$` then
matches at the end of the string or just before a single trailing
newline — so Python also accepts a 12-character string ending in
`'\n'`. -/
def validate_video_id (s : String) : Bool :=
  let head := s.toList.take 11
  let rest := s.toList.drop 11
  head.length == 11 && head.all idChar &&
    (rest.isEmpty || rest == ['\n'])

/-- `urlparse(url).query`: the part after the first `?` of the
pre-fragment portion of the URL. -/
def queryString (u : String) : String :=
  let pre := u.toList.takeWhile (fun c => c ≠ '#')
  match pre.dropWhile (fun c => c ≠ '?') with
  | [] => ""
  | _ :: rest => String.mk rest

/-- Split a character list on a separator character. -/
def splitCharList (sep : Char) : List Char → List (List Char)
  | [] => [[]]
  | c :: cs =>
    let rest := splitCharList sep cs
    if c = sep then [] :: rest
    else
      match rest with
      | [] => [[c]]
      | r :: rs => (c :: r) :: rs

/-- One `k=v` pair of a query string, as `parse_qs` reads it: the value
after the first `=`, kept only when non-blank and the key matches. -/
def paramValue (key : String) (cs : List Char) : Option String :=
  let k := cs.takeWhile (fun c => c ≠ '=')
  match cs.dropWhile (fun c => c ≠ '=') with
  | [] => none
  | _ :: v =>
    if String.mk k = key ∧ v ≠ [] then some (String.mk v) else none

/-- `parse_qs(query)[key][0]`: the first non-blank value bound to `key`. -/
def firstQueryParam (key q : String) : Option String :=
  ((splitCharList '&' q.toList).filterMap
    (fun p => paramValue key p)).head?

/-- `extract_video_id` (`video_utils.py` lines 11-83).  A `ValueError`
from the source is `none` here.  The five URL patterns are tried in
source order, each guarded by Python's substring test. -/
def extract_video_id (url : String) : Option String :=
  if url.isEmpty then none
  else
    let u := pyStrip url
    match (if strContains u "youtu.be/" then regexFindId "youtu.be/" u
           else none) with
    | some v => some v
    | none =>
      match (if strContains u "/shorts/" then regexFindId "/shorts/" u
             else none) with
      | some v => some v
      | none =>
        match (if strContains u "/embed/" then regexFindId "/embed/" u
               else none) with
        | some v => some v
        | none =>
          match (if strContains u "/v/" then regexFindId "/v/" u
                 else none) with
          | some v => some v
          | none =>
            if strContains u "youtube.com" || strContains u "m.youtube.com"
            then
              match firstQueryParam "v" (queryString u) with
              | some v => if validate_video_id v then some v else none
              | none => none
            else none

/-! ## Extraction orchestrator (`youtube_extractor.py`, `extract_all`)

The four collectors are external calls; the embedding takes their outcomes
as inputs.  `get_metadata` is the one fatal call: `extract_all` only
proceeds once it returned, so the metadata is an input here. -/

/-- Outcome of one collector call: it raised, or returned a value. -/
inductive CollectorOutcome (α : Type)
  | throws
  | returns (val : α)

/-- The outcomes of the collectors driven by `extract_all`:
`get_captions`, `download_audio`, `transcribe_audio`, `download_video`,
`extract_key_frames`, `get_top_comments`. -/
structure CollectorEnv where
  captionsRes : CollectorOutcome (Option String)
  audioRes : CollectorOutcome (Option String)
  transcribeRes : CollectorOutcome (Option String)
  videoRes : CollectorOutcome (Option String)
  framesRes : CollectorOutcome (List String)
  commentsRes : CollectorOutcome (List String)

/-- The `captions` variable after step 3 of `extract_all`
(`youtube_extractor.py` lines 484-493): `None` when `get_captions`
raised, its return value otherwise. -/
def collectedCaptions (env : CollectorEnv) : Option String :=
  match env.captionsRes with
  | .throws => none
  | .returns v => v

/-- The `transcript` variable after steps 4-5 of `extract_all`
(lines 496-519): transcription is attempted only under `if not captions:`
(Python truthiness), and any failure inside the audio block leaves the
transcript `None`. -/
def collectedTranscript (env : CollectorEnv) : Option String :=
  if strTruthy (collectedCaptions env) then none
  else
    match env.audioRes with
    | .throws => none
    | .returns a =>
      if strTruthy a then
        match env.transcribeRes with
        | .throws => none
        | .returns t => t
      else none

/-- The `key_frames` variable after step 6 of `extract_all`
(lines 521-535). -/
def collectedFrames (env : CollectorEnv) : List String :=
  match env.videoRes with
  | .throws => []
  | .returns v =>
    if strTruthy v then
      match env.framesRes with
      | .throws => []
      | .returns fs => fs
    else []

/-- The `comments` variable after step 7 of `extract_all`
(lines 537-543). -/
def collectedComments (env : CollectorEnv) : List String :=
  match env.commentsRes with
  | .throws => []
  | .returns cs => cs

/-- `extract_all` (`youtube_extractor.py` lines 440-574), given the
already-fetched metadata, the collector outcomes, and the elapsed wall
time. -/
def extract_all (md : VideoMetadata) (env : CollectorEnv) (elapsed : ℚ) :
    ExtractionResult :=
  { metadata := md
    captions := collectedCaptions env
    transcript := collectedTranscript env
    key_frame_paths := collectedFrames env
    top_comments := collectedComments env
    extraction_time_seconds := some elapsed }

/-! ## Category processors (`backend/services/processors/`)

Each processor derives a text body and issues one AI call.  The AI
interaction of a processor run is abstracted as an `AIRun`: the model was
never configured (no credentials), the call raised, the response failed
to parse as JSON, or it produced a (repaired) structured value.  All
three failure constructors take the processor to its minimal response. -/

/-- Outcome of a processor's single AI call. -/
inductive AIRun (α : Type)
  | noCredentials
  | raised
  | unparseable
  | ok (val : α)

/-- Whether the AI call failed totally. -/
def AIRun.isFailure : AIRun α → Bool
  | .ok _ => false
  | _ => true

/-- `BaseProcessor.get_text_content` (`base_processor.py` lines 48-77):
`captions or transcript or description or ""`. -/
def get_text_content (x : ExtractionResult) : String :=
  pyOrStr x.captions (pyOrStr x.transcript x.metadata.description)

/-- The shape of `DefaultProcessor`'s output dict. -/
structure GeneralOutput where
  type : String
  summary : String
  key_points : List String
  topics : List String
  sentiment : String
  transcript : String

/-- `DefaultProcessor._minimal_response` (`default.py` lines 193-210). -/
def defaultMinimalResponse (text_content : String) : GeneralOutput :=
  { type := "general"
    summary :=
      "Summary unavailable - AI processing failed or API key not configured"
    key_points := []
    topics := []
    sentiment := "neutral"
    transcript := text_content }

/-- `DefaultProcessor.process` (`default.py` lines 53-91): no model,
a raised call, and unparseable JSON all fall to `_minimal_response`. -/
def DefaultProcessor.process (run : AIRun GeneralOutput)
    (x : ExtractionResult) : GeneralOutput :=
  let text_content := get_text_content x
  match run with
  | .ok g => g
  | _ => defaultMinimalResponse text_content

/-- One ingredient dict of a recipe. -/
structure RecipeIngredient where
  item : String
  quantity : String
  notes : String

/-- One step dict of a recipe. -/
structure RecipeStep where
  step : Nat
  instruction : String
  timestamp : Option String

/-- The shape of `RecipeProcessor`'s output dict; `error` is the explicit
marker key present only in the minimal response. -/
structure RecipeOutput where
  type : String
  dish_name : String
  cuisine : String
  prep_time : String
  cook_time : String
  servings : Int
  difficulty : String
  ingredients : List RecipeIngredient
  steps : List RecipeStep
  tips : List String
  nutrition_calories : Int
  nutrition_protein : String
  nutrition_carbs : String
  nutrition_fat : String
  transcript_completeness : String
  error : Option String

/-- `RecipeProcessor._minimal_response` (`recipe.py` lines 241-271). -/
def recipeMinimalResponse (video_title text_content : String) :
    RecipeOutput :=
  { type := "recipe"
    dish_name := video_title
    cuisine := "Unknown"
    prep_time := "Not specified"
    cook_time := "Not specified"
    servings := 0
    difficulty := "medium"
    ingredients := []
    steps := []
    tips := []
    nutrition_calories := 0
    nutrition_protein := "Not available"
    nutrition_carbs := "Not available"
    nutrition_fat := "Not available"
    transcript_completeness :=
      if text_content.isEmpty then "visual_only" else "partial"
    error := some "AI processing failed or API key not configured" }

/-- `RecipeProcessor.process` (`recipe.py` lines 52-95): the text body is
truncated to 8000 chars; no model, a raised call, and unparseable JSON
all fall to `_minimal_response(title, text_content)`. -/
def RecipeProcessor.process (run : AIRun RecipeOutput)
    (x : ExtractionResult) : RecipeOutput :=
  let text_content := takeStr (get_text_content x) 8000
  match run with
  | .ok r => r
  | _ => recipeMinimalResponse x.metadata.title text_content

/-- One raw extracted movie, as validated by `_parse_movie_response`
(`movie_list.py` lines 205-220): title, optional year, 1-based rank. -/
structure RawMovie where
  title : String
  year : Option Int
  rank : Nat

/-- The TMDB enrichment payload of one movie (the fields relevant here;
the rank is assigned by the enrichment loop, not by TMDB). -/
structure TMDBMovie where
  title : String
  year : Option String
  tmdb_id : Nat

/-- One entry of the final movie list: an enriched dict carrying the raw
entry's rank, or the raw dict with `tmdb_found = False`. -/
inductive MovieEntry
  | enriched (m : TMDBMovie) (rank : Nat)
  | rawNotFound (r : RawMovie)

/-- The rank carried by a final movie entry. -/
def MovieEntry.rank : MovieEntry → Nat
  | .enriched _ k => k
  | .rawNotFound r => r.rank

/-- The `for raw, enriched in zip(chunk, results)` body of
`MovieListProcessor.process` (`movie_list.py` lines 104-112). -/
def enrichStep (enrich : String → Option Int → Option TMDBMovie)
    (r : RawMovie) : MovieEntry :=
  match enrich r.title r.year with
  | some m => .enriched m r.rank
  | none => .rawNotFound r

/-- The chunked enrichment loop (`movie_list.py` lines 94-112): the raw
list is processed in batches of `chunk_size = 5`; each batch is enriched
and zipped back against its raw entries. -/
def enrichChunked (enrich : String → Option Int → Option TMDBMovie) :
    List RawMovie → List MovieEntry
  | a :: b :: c :: d :: e :: rest =>
    [a, b, c, d, e].map (enrichStep enrich) ++ enrichChunked enrich rest
  | ms => ms.map (enrichStep enrich)

/-- The shape of `MovieListProcessor`'s output dict. -/
structure MovieListOutput where
  type : String
  movies : List MovieEntry
  count : Nat
  extraction_method : String

/-- `MovieListProcessor.process` (`movie_list.py` lines 61-119):
`_extract_movies` returns `[]` on every failure (no model, raised call,
unparseable JSON), in which case the processor returns the explicit
failed output; otherwise the raw list is enriched chunk by chunk. -/
def MovieListProcessor.process (run : AIRun (List RawMovie))
    (enrich : String → Option Int → Option TMDBMovie)
    (x : ExtractionResult) : MovieListOutput :=
  let raw_movies : List RawMovie :=
    match run with
    | .ok ms => ms
    | _ => []
  if raw_movies.isEmpty then
    { type := "movie_list"
      movies := []
      count := 0
      extraction_method := "failed" }
  else
    let enriched_movies := enrichChunked enrich raw_movies
    { type := "movie_list"
      movies := enriched_movies
      count := enriched_movies.length
      extraction_method :=
        if x.key_frame_paths.isEmpty then "text_only" else "multimodal" }

/-! ## Concrete fixtures -/

/-- A concrete metadata record whose lower-cased search text is
`"standup  "`: it matches exactly the single strong comedy keyword
`"standup"` (weight 5) and no other keyword of any category. -/
def strongOnlyMetadata : VideoMetadata :=
  { video_id := "aaaaaaaaaaa"
    title := "Standup"
    description := ""
    channel_name := "chan"
    channel_id := "chid"
    duration_seconds := 60
    thumbnail_url := "thumb"
    published_at := "2024-01-01T00:00:00Z"
    category_id := "23" }

/-- An extraction record around `strongOnlyMetadata`, with no captions,
transcript, frames or comments. -/
def strongOnlyExtraction : ExtractionResult :=
  { metadata := strongOnlyMetadata }

/-- The attempt environment in which every AI call raises — exactly what
happens when `GOOGLE_API_KEY` is unset, since `classify_video` then
raises `ValueError` before any network traffic. -/
def throwsEnv : AttemptEnv := fun _ _ => .throws

/-- The collector environment in which every collector raises. -/
def allThrowCollectors : CollectorEnv :=
  { captionsRes := .throws
    audioRes := .throws
    transcribeRes := .throws
    videoRes := .throws
    framesRes := .throws
    commentsRes := .throws }

/-!
# Theorems

First the general lemmas about the embedded definitions, then one theorem
per specification claim (C1-C10), with witnesses and counterexamples.
-/

/-! ## General lemmas -/

theorem pyMin_eq_min (a b : ℚ) : pyMin a b = min a b :=
  (min_def a b).symm

theorem VideoCategory.mem_all (c : VideoCategory) : c ∈ VideoCategory.all := by
  cases c <;> simp [VideoCategory.all]

theorem rule_based_confidence_eq (now : String) (x : ExtractionResult) :
    (rule_based_classify now x).confidence =
      if maxScore x = 0 then 3/10
      else pyMin (3/5) (((bestPair x).2 : ℚ) / 15) := by
  unfold rule_based_classify
  split <;> rfl

theorem rule_based_model_used (now : String) (x : ExtractionResult) :
    (rule_based_classify now x).model_used = "rule-based" := by
  unfold rule_based_classify
  split <;> rfl

theorem rule_based_classified_at (now : String) (x : ExtractionResult) :
    (rule_based_classify now x).classified_at = some now := by
  unfold rule_based_classify
  split <;> rfl

theorem rule_based_confidence_le (now : String) (x : ExtractionResult) :
    (rule_based_classify now x).confidence ≤ 3/5 := by
  rw [rule_based_confidence_eq]
  split
  · norm_num
  · rw [pyMin_eq_min]; exact le_trans (min_le_left _ _) (by norm_num)

/-- The result of folding `pickMax` is one of the fold's inputs. -/
theorem foldl_pickMax_mem (l : List (VideoCategory × Nat)) :
    ∀ b : VideoCategory × Nat, l.foldl pickMax b ∈ b :: l := by
  induction l with
  | nil => intro b; simp
  | cons y ys ih =>
    intro b
    have h := ih (pickMax b y)
    rw [List.mem_cons] at h
    have hp : pickMax b y = y ∨ pickMax b y = b := by
      unfold pickMax; split
      · exact Or.inl rfl
      · exact Or.inr rfl
    simp only [List.foldl_cons, List.mem_cons]
    rcases h with h | h
    · rcases hp with hp | hp
      · right; left; rw [h, hp]
      · left; rw [h, hp]
    · right; right; exact h

/-- Folding `pickMax` computes the maximum of the scores. -/
theorem foldl_pickMax_snd (l : List (VideoCategory × Nat)) :
    ∀ b : VideoCategory × Nat,
      (l.foldl pickMax b).2 = l.foldl (fun m p => max m p.2) b.2 := by
  induction l with
  | nil => intro b; rfl
  | cons y ys ih =>
    intro b
    simp only [List.foldl_cons]
    rw [ih (pickMax b y)]
    have : (pickMax b y).2 = max b.2 y.2 := by
      unfold pickMax; split <;> omega
    rw [this]

/-- The guard value `max(scores.values())` agrees with the score of the
category selected by `max(scores, key=scores.get)`. -/
theorem bestPair_snd (x : ExtractionResult) : (bestPair x).2 = maxScore x := by
  unfold bestPair maxScore
  cases h : scoresList x with
  | nil => simp [scoresList, rulesTable] at h
  | cons s rest =>
    simp only [List.foldl_cons]
    rw [foldl_pickMax_snd]
    have : max 0 s.2 = s.2 := by omega
    rw [this]

/-- The selected category is a key of the keyword table. -/
theorem bestPair_mem (x : ExtractionResult) :
    (bestPair x).1 ∈ rulesTable.map Prod.fst := by
  unfold bestPair
  cases h : scoresList x with
  | nil => simp [scoresList, rulesTable] at h
  | cons s rest =>
    have hmem := foldl_pickMax_mem rest s
    have : rest.foldl pickMax s ∈ scoresList x := by
      rw [h]; exact hmem
    have h1 : (rest.foldl pickMax s).1 ∈ (scoresList x).map Prod.fst :=
      List.mem_map_of_mem Prod.fst this
    have h2 : (scoresList x).map Prod.fst = rulesTable.map Prod.fst := by
      unfold scoresList
      rw [List.map_map]
      rfl
    rw [h2] at h1
    exact h1

/-- The chunking is invisible in the result: the loop acts entry-wise. -/
theorem enrichChunked_eq_map (enrich : String → Option Int → Option TMDBMovie) :
    ∀ ms : List RawMovie,
      enrichChunked enrich ms = ms.map (enrichStep enrich)
  | [] => rfl
  | [_] => rfl
  | [_, _] => rfl
  | [_, _, _] => rfl
  | [_, _, _, _] => rfl
  | a :: b :: c :: d :: e :: rest => by
    rw [enrichChunked, enrichChunked_eq_map enrich rest]
    simp

/-! ## Claim theorems -/

/-- C1: for every extraction record (and every outcome of the four AI
calls and every clock reading), `classify_with_fallback` returns a
`ClassificationResult` whose confidence lies in `[0, 1]` and whose
category belongs to the closed enumerated category set.  The function is
total in the embedding — every AI-rung failure is an absorbed
`AttemptOutcome.throws` and the terminal rule-based rung always produces
a value — so the call never raises. -/
theorem classify_with_fallback_range (env : AttemptEnv) (now : String)
    (x : ExtractionResult) :
    0 ≤ (classify_with_fallback env now x).confidence ∧
      (classify_with_fallback env now x).confidence ≤ 1 ∧
      (classify_with_fallback env now x).category ∈ VideoCategory.all :=
  ⟨(classify_with_fallback env now x).conf_nonneg,
   (classify_with_fallback env now x).conf_le_one,
   VideoCategory.mem_all _⟩

/-- C2: `classify_with_fallback` equals the first accepted rung of the
ladder — primary multimodal at threshold 0.70, primary text-only at 0.60,
fallback multimodal at 0.70, fallback text-only at 0.50, consulted in
that order — defaulting to the always-accepted `rule_based_classify`.  A
rung is consulted only when every earlier rung threw (its exception is
caught, yielding `none`) or returned a result at or below its
threshold. -/
theorem classify_with_fallback_ladder (env : AttemptEnv) (now : String)
    (x : ExtractionResult) :
    classify_with_fallback env now x =
      (firstAccepted (ladderRungs env)).getD (rule_based_classify now x) := by
  simp only [classify_with_fallback, ladderRungs, firstAccepted]
  cases attemptAccept (env .primary true) (7/10) <;>
    cases attemptAccept (env .primary false) (6/10) <;>
      cases attemptAccept (env .fallback true) (7/10) <;>
        cases attemptAccept (env .fallback false) (5/10)
  case none.none.none.none => exact (Option.getD_none).symm
  all_goals rfl

/-- C3: when no keyword of any category occurs in the search text (the
maximum keyword score is zero), `rule_based_classify` returns confidence
exactly 0.3, category `unknown` and the fixed reasoning string;
otherwise its confidence is `min(0.6, best_score / 15)`.  On the
concrete record whose search text matches exactly one strong keyword of
one category (score 5), the confidence is `min(0.6, 5/15) = 1/3`. -/
theorem rule_based_confidence_spec :
    (∀ now x, (rule_based_classify now x).confidence =
        if maxScore x = 0 then 3/10
        else min (3/5) ((maxScore x : ℚ) / 15))
    ∧ (∀ now x, maxScore x ≠ 0 ∨
        ((rule_based_classify now x).category = VideoCategory.unknown ∧
          (rule_based_classify now x).reasoning =
            "No matching keywords found in rule-based classification" ∧
          (rule_based_classify now x).confidence = 3/10))
    ∧ maxScore strongOnlyExtraction = 5
    ∧ (rule_based_classify "2024-02-12T03:15:00Z"
        strongOnlyExtraction).confidence = min (3/5) (5/15)
    ∧ min ((3 : ℚ)/5) (5/15) = 1/3 := by
  have hconf : ∀ now x, (rule_based_classify now x).confidence =
      if maxScore x = 0 then 3/10
      else min (3/5) ((maxScore x : ℚ) / 15) := by
    intro now x
    rw [rule_based_confidence_eq]
    by_cases h : maxScore x = 0
    · rw [if_pos h, if_pos h]
    · rw [if_neg h, if_neg h, pyMin_eq_min, bestPair_snd]
  have hmax : maxScore strongOnlyExtraction = 5 := by decide
  refine ⟨hconf, ?_, hmax, ?_, ?_⟩
  · intro now x
    by_cases h : maxScore x = 0
    · right
      refine ⟨?_, ?_, ?_⟩ <;>
        · unfold rule_based_classify
          rw [if_pos h]
    · exact Or.inl h
  · rw [hconf, hmax]
    norm_num
  · rw [min_eq_right (by norm_num)]
    norm_num

/-- C5: when every AI call raises (as when no AI-provider credential is
configured, so `classify_video` raises `ValueError` on each attempt),
`classify_with_fallback` still returns a result, with `model_used`
equal to `"rule-based"` and confidence at most 0.6. -/
theorem classify_with_fallback_no_credentials (env : AttemptEnv)
    (now : String) (x : ExtractionResult)
    (h : ∀ m f, env m f = AttemptOutcome.throws) :
    (classify_with_fallback env now x).model_used = "rule-based" ∧
      (classify_with_fallback env now x).confidence ≤ 3/5 := by
  have hx : classify_with_fallback env now x = rule_based_classify now x := by
    unfold classify_with_fallback
    rw [h .primary true, h .primary false, h .fallback true, h .fallback false]
    rfl
  rw [hx]
  exact ⟨rule_based_model_used now x, rule_based_confidence_le now x⟩

/-- Witness for C5 at a concrete all-throwing environment and record. -/
theorem classify_with_fallback_no_credentials_witness :
    (classify_with_fallback throwsEnv "2024-02-12T03:15:00Z"
        strongOnlyExtraction).model_used = "rule-based" ∧
      (classify_with_fallback throwsEnv "2024-02-12T03:15:00Z"
        strongOnlyExtraction).confidence ≤ 3/5 :=
  classify_with_fallback_no_credentials throwsEnv "2024-02-12T03:15:00Z"
    strongOnlyExtraction (fun _ _ => rfl)

/-- C10: the category returned by `rule_based_classify` is either the
`unknown` sentinel or a key of its fixed twelve-category keyword table;
in particular it is never `news`, although `news` belongs to the
enumerated category set. -/
theorem rule_based_category_from_table (now : String) (x : ExtractionResult) :
    ((rule_based_classify now x).category = VideoCategory.unknown ∨
      (rule_based_classify now x).category ∈ rulesTable.map Prod.fst) ∧
      (rule_based_classify now x).category ≠ VideoCategory.news := by
  have hcat : (rule_based_classify now x).category = VideoCategory.unknown ∨
      (rule_based_classify now x).category = (bestPair x).1 := by
    unfold rule_based_classify
    by_cases h : maxScore x = 0
    · rw [if_pos h]; exact Or.inl rfl
    · rw [if_neg h]; exact Or.inr rfl
  have hnews : ∀ c ∈ rulesTable.map Prod.fst, c ≠ VideoCategory.news := by
    decide
  rcases hcat with h | h
  · refine ⟨Or.inl h, ?_⟩
    rw [h]
    decide
  · refine ⟨Or.inr ?_, ?_⟩
    · rw [h]; exact bestPair_mem x
    · rw [h]; exact hnews _ (bestPair_mem x)

/-- C4 counterexample: two calls of `rule_based_classify` on the same
record at different clock readings return different results — the
`classified_at` field records `datetime.utcnow()`, so the function is not
a pure function of the extraction record alone. -/
theorem rule_based_classify_two_calls_differ :
    rule_based_classify "2024-02-12T03:15:00Z" strongOnlyExtraction ≠
      rule_based_classify "2024-02-12T03:15:01Z" strongOnlyExtraction := by
  intro h
  have h2 := congrArg ClassificationResult.classified_at h
  rw [rule_based_classified_at, rule_based_classified_at] at h2
  exact absurd h2 (by decide)

/-- C4 amended: `rule_based_classify` is deterministic in every output
field except the `classified_at` timestamp: two calls on identical
extraction records agree on video id, category, confidence,
sub-category, reasoning, alternative categories and model used; in
particular identical text input always yields the identical category,
confidence and alternative-categories list. -/
theorem rule_based_classify_deterministic (now₁ now₂ : String)
    (x : ExtractionResult) :
    (rule_based_classify now₁ x).video_id =
        (rule_based_classify now₂ x).video_id ∧
      (rule_based_classify now₁ x).category =
        (rule_based_classify now₂ x).category ∧
      (rule_based_classify now₁ x).confidence =
        (rule_based_classify now₂ x).confidence ∧
      (rule_based_classify now₁ x).sub_category =
        (rule_based_classify now₂ x).sub_category ∧
      (rule_based_classify now₁ x).reasoning =
        (rule_based_classify now₂ x).reasoning ∧
      (rule_based_classify now₁ x).alternative_categories =
        (rule_based_classify now₂ x).alternative_categories ∧
      (rule_based_classify now₁ x).model_used =
        (rule_based_classify now₂ x).model_used := by
  by_cases h : maxScore x = 0 <;>
    · unfold rule_based_classify
      simp only [h, if_true, if_false, reduceIte]
      trivial

/-- C6 counterexample, refuting two parts of the claim.  First,
`"dQw4w9WgXcQ"` is a valid, already-extracted identifier, yet
`extract_video_id` applied to it raises `ValueError` (returns `none` in
the embedding) instead of returning it unchanged — extraction is not
idempotent.  Second, an 11-character identifier is not the only shape
`validate_video_id` accepts: the regex `^[a-zA-Z0-9_-]{11}$` used by the
source also matches the 12-character string `"dQw4w9WgXcQ\n"`, because
Python's `$` matches just before a trailing newline. -/
theorem extract_video_id_rejects_bare_id :
    (validate_video_id "dQw4w9WgXcQ" = true ∧
      extract_video_id "dQw4w9WgXcQ" = none) ∧
      (validate_video_id "dQw4w9WgXcQ\n" = true ∧
        ("dQw4w9WgXcQ\n").length = 12) := by
  refine ⟨⟨?_, ?_⟩, ?_, ?_⟩ <;> decide

/-- C6 amended: identifier extraction is format-agnostic — the youtu.be,
watch?v= and shorts URL forms of the same video all return the same
11-character identifier `"dQw4w9WgXcQ"` — and the shapes
`validate_video_id` accepts are exactly the strings made of 11
characters drawn from alphanumerics, underscore and hyphen, optionally
followed by one trailing newline (Python's `$` matches before a trailing
newline, so `"dQw4w9WgXcQ\n"` passes while a 12th identifier character
does not); however, applying extraction to an already-extracted bare
identifier raises (`none`) rather than returning it unchanged. -/
theorem extract_video_id_format_agnostic :
    extract_video_id "https://youtu.be/dQw4w9WgXcQ" = some "dQw4w9WgXcQ" ∧
      extract_video_id "https://www.youtube.com/watch?v=dQw4w9WgXcQ" =
        some "dQw4w9WgXcQ" ∧
      extract_video_id "https://www.youtube.com/shorts/dQw4w9WgXcQ" =
        some "dQw4w9WgXcQ" ∧
      (∀ s : String, validate_video_id s = true ↔
        ∃ cs : List Char, (s.toList = cs ∨ s.toList = cs ++ ['\n']) ∧
          cs.length = 11 ∧ ∀ c ∈ cs, idChar c = true) ∧
      validate_video_id "dQw4w9WgXcQ\n" = true ∧
      validate_video_id "dQw4w9WgXcQQ" = false ∧
      extract_video_id "dQw4w9WgXcQ" = none := by
  refine ⟨by decide, by decide, by decide, ?_, by decide, by decide,
    by decide⟩
  intro s
  unfold validate_video_id
  simp only [Bool.and_eq_true, Bool.or_eq_true, beq_iff_eq,
    List.all_eq_true, List.isEmpty_iff]
  constructor
  · rintro ⟨⟨hlen, hall⟩, hrest⟩
    refine ⟨s.toList.take 11, ?_, hlen, hall⟩
    rcases hrest with h | h
    · left
      conv_lhs => rw [← List.take_append_drop 11 s.toList]
      rw [h, List.append_nil]
    · right
      conv_lhs => rw [← List.take_append_drop 11 s.toList]
      rw [h]
  · rintro ⟨cs, hs, hlen, hall⟩
    rcases hs with h | h
    · have ht : s.toList.take 11 = cs := by
        rw [h]
        exact List.take_of_length_le hlen.le

      have hd : s.toList.drop 11 = [] := by
        rw [h]
        exact List.drop_eq_nil_of_le hlen.le
      rw [ht, hd]
      exact ⟨⟨hlen, hall⟩, Or.inl rfl⟩
    · have ht : s.toList.take 11 = cs := by
        rw [h]
        exact List.take_left' hlen
      have hd : s.toList.drop 11 = ['\n'] := by
        rw [h]
        exact List.drop_left' hlen
      rw [ht, hd]
      exact ⟨⟨hlen, hall⟩, Or.inr rfl⟩

/-- C9: in every record produced by `extract_all`, at most one of
`captions` and `transcript` carries primary text content: whenever the
captions are present (a non-empty string, Python-truthy), the transcript
is `None`, because transcription is attempted only under
`if not captions:`; both may be absent, and neither is fabricated —
each can only be the value some collector returned, as the all-throwing
environment shows. -/
theorem extract_all_at_most_one_text (md : VideoMetadata)
    (env : CollectorEnv) (elapsed : ℚ) :
    ((extract_all md env elapsed).transcript = none ∨
      strTruthy (extract_all md env elapsed).captions = false) ∧
      (strTruthy (extract_all md env elapsed).captions &&
        strTruthy (extract_all md env elapsed).transcript) = false ∧
      (extract_all strongOnlyMetadata allThrowCollectors 0).captions =
        none ∧
      (extract_all strongOnlyMetadata allThrowCollectors 0).transcript =
        none := by
  by_cases h : strTruthy (collectedCaptions env) = true
  · have ht : collectedTranscript env = none := by
      unfold collectedTranscript
      rw [if_pos h]
    have ht' : (extract_all md env elapsed).transcript = none := ht
    refine ⟨Or.inl ht', ?_, rfl, rfl⟩
    show (strTruthy (collectedCaptions env) &&
      strTruthy (collectedTranscript env)) = false
    rw [ht, h]
    rfl
  · have h' : strTruthy (collectedCaptions env) = false :=
      Bool.eq_false_iff.mpr h
    refine ⟨Or.inr h', ?_, rfl, rfl⟩
    show (strTruthy (collectedCaptions env) &&
      strTruthy (collectedTranscript env)) = false
    rw [h']
    rfl

/-- C7: for each category processor variant (recipe, movie-list,
default), every total failure of the AI call — no credentials, a raised
call, or unparseable JSON — yields that variant's minimal well-typed
output: the variant's `type` tag, empty/default structured fields, and
an explicit error marker (the failure summary for the default variant,
the `error` key for the recipe variant, `extraction_method = "failed"`
for the movie-list variant); no exception propagates, as each processor
is total. -/
theorem processors_minimal_on_failure (x : ExtractionResult)
    (dRun : AIRun GeneralOutput) (rRun : AIRun RecipeOutput)
    (mRun : AIRun (List RawMovie))
    (enrich : String → Option Int → Option TMDBMovie)
    (hd : dRun.isFailure = true) (hr : rRun.isFailure = true)
    (hm : mRun.isFailure = true) :
    DefaultProcessor.process dRun x =
        defaultMinimalResponse (get_text_content x) ∧
      (DefaultProcessor.process dRun x).type = "general" ∧
      (DefaultProcessor.process dRun x).key_points = [] ∧
      (DefaultProcessor.process dRun x).topics = [] ∧
      (DefaultProcessor.process dRun x).sentiment = "neutral" ∧
      RecipeProcessor.process rRun x =
        recipeMinimalResponse x.metadata.title
          (takeStr (get_text_content x) 8000) ∧
      (RecipeProcessor.process rRun x).type = "recipe" ∧
      (RecipeProcessor.process rRun x).ingredients = [] ∧
      (RecipeProcessor.process rRun x).steps = [] ∧
      (RecipeProcessor.process rRun x).error =
        some "AI processing failed or API key not configured" ∧
      MovieListProcessor.process mRun enrich x =
        { type := "movie_list", movies := [], count := 0,
          extraction_method := "failed" } := by
  have hD : DefaultProcessor.process dRun x =
      defaultMinimalResponse (get_text_content x) := by
    cases dRun with
    | ok g => exact absurd hd (by simp [AIRun.isFailure])
    | noCredentials => rfl
    | raised => rfl
    | unparseable => rfl
  have hR : RecipeProcessor.process rRun x =
      recipeMinimalResponse x.metadata.title
        (takeStr (get_text_content x) 8000) := by
    cases rRun with
    | ok r => exact absurd hr (by simp [AIRun.isFailure])
    | noCredentials => rfl
    | raised => rfl
    | unparseable => rfl
  have hM : MovieListProcessor.process mRun enrich x =
      { type := "movie_list", movies := [], count := 0,
        extraction_method := "failed" } := by
    cases mRun with
    | ok ms => exact absurd hm (by simp [AIRun.isFailure])
    | noCredentials => rfl
    | raised => rfl
    | unparseable => rfl
  refine ⟨hD, ?_, ?_, ?_, ?_, hR, ?_, ?_, ?_, ?_, hM⟩ <;>
    first
      | (rw [hD]; rfl)
      | (rw [hR]; rfl)

/-- Witness for C7 on a concrete record with each AI call raising and
every enrichment lookup failing. -/
theorem processors_minimal_on_failure_witness :
    DefaultProcessor.process .raised strongOnlyExtraction =
        defaultMinimalResponse (get_text_content strongOnlyExtraction) ∧
      (DefaultProcessor.process (AIRun.raised (α := GeneralOutput))
        strongOnlyExtraction).type = "general" ∧
      (DefaultProcessor.process (AIRun.raised (α := GeneralOutput))
        strongOnlyExtraction).key_points = [] ∧
      (DefaultProcessor.process (AIRun.raised (α := GeneralOutput))
        strongOnlyExtraction).topics = [] ∧
      (DefaultProcessor.process (AIRun.raised (α := GeneralOutput))
        strongOnlyExtraction).sentiment = "neutral" ∧
      RecipeProcessor.process .raised strongOnlyExtraction =
        recipeMinimalResponse strongOnlyExtraction.metadata.title
          (takeStr (get_text_content strongOnlyExtraction) 8000) ∧
      (RecipeProcessor.process (AIRun.raised (α := RecipeOutput))
        strongOnlyExtraction).type = "recipe" ∧
      (RecipeProcessor.process (AIRun.raised (α := RecipeOutput))
        strongOnlyExtraction).ingredients = [] ∧
      (RecipeProcessor.process (AIRun.raised (α := RecipeOutput))
        strongOnlyExtraction).steps = [] ∧
      (RecipeProcessor.process (AIRun.raised (α := RecipeOutput))
        strongOnlyExtraction).error =
        some "AI processing failed or API key not configured" ∧
      MovieListProcessor.process .raised (fun _ _ => none)
        strongOnlyExtraction =
        { type := "movie_list", movies := [], count := 0,
          extraction_method := "failed" } :=
  processors_minimal_on_failure strongOnlyExtraction .raised .raised .raised
    (fun _ _ => none) rfl rfl rfl

/-- C8: the movie-list processor's output has exactly as many entries as
the extracted list, whatever the enrichment function does (including
failing on every lookup): entry `i` of the output is the enriched dict
keeping the rank of raw entry `i` when enrichment finds it, and the raw
entry itself with the not-found marker otherwise — never dropped. -/
theorem movie_list_count_preserved (raws : List RawMovie)
    (enrich : String → Option Int → Option TMDBMovie)
    (x : ExtractionResult) :
    (MovieListProcessor.process (.ok raws) enrich x).movies.length =
        raws.length ∧
      (∀ i : Nat,
        ((MovieListProcessor.process (.ok raws) enrich x).movies[i]?).map
            MovieEntry.rank = (raws[i]?).map RawMovie.rank) ∧
      (∀ i : Nat,
        (MovieListProcessor.process (.ok raws) enrich x).movies[i]? =
          (raws[i]?).map (fun r =>
            match enrich r.title r.year with
            | some m => MovieEntry.enriched m r.rank
            | none => MovieEntry.rawNotFound r)) := by
  have hmovies : (MovieListProcessor.process (.ok raws) enrich x).movies =
      raws.map (enrichStep enrich) := by
    unfold MovieListProcessor.process
    cases raws with
    | nil => rfl
    | cons a l =>
      simp only [List.isEmpty_cons, Bool.false_eq_true, if_false,
        enrichChunked_eq_map]
  have hrank : ∀ r : RawMovie, (enrichStep enrich r).rank = r.rank := by
    intro r
    unfold enrichStep
    cases enrich r.title r.year <;> rfl
  refine ⟨?_, ?_, ?_⟩
  · rw [hmovies, List.length_map]
  · intro i
    rw [hmovies, List.getElem?_map]
    cases raws[i]? with
    | none => rfl
    | some r => simp [hrank]
  · intro i
    rw [hmovies, List.getElem?_map]
    rfl

end VidBrain
